import Mathlib

set_option maxHeartbeats 1000000

/- Shallow embedding of the dataleaks-backend repository
   (src/app.py, src/main.py, src/netlify/functions/query.py).

   JSON values are modelled by `JVal`; the Python dynamic operations the
   code relies on (truthiness, dict.get, int(), len(), slicing, str())
   are modelled explicitly, with `Except` for operations that raise. -/

inductive JVal where
  | JNull
  | JBool (b : Bool)
  | JNum (q : ℚ)
  | JStr (s : String)
  | JList (xs : List JVal)
  | JObj (kvs : List (String × JVal))

open JVal

/-- Python truthiness (`bool(v)`) on JSON values. -/
def truthy : JVal → Bool
  | .JNull => false
  | .JBool b => b
  | .JNum q => decide (q ≠ 0)
  | .JStr s => decide (s ≠ "")
  | .JList xs => !xs.isEmpty
  | .JObj kvs => !kvs.isEmpty

/-- Python `a or b` on JSON values. -/
def pyOr (a b : JVal) : JVal := if truthy a then a else b

/-- `dict.get(k, d)`: first binding wins (JSON objects have unique keys). -/
def jgetD : List (String × JVal) → String → JVal → JVal
  | [], _, d => d
  | p :: ps, k, d => if p.1 == k then p.2 else jgetD ps k d

/-- `dict.get(k)` (default `None`). -/
def jget (kvs : List (String × JVal)) (k : String) : JVal := jgetD kvs k .JNull

/-- `k in dict`. -/
def jhasKey (kvs : List (String × JVal)) (k : String) : Bool :=
  kvs.any (fun p => p.1 == k)

/-- `dict[k] = v`: replace in place if the key exists, else append. -/
def jset (kvs : List (String × JVal)) (k : String) (v : JVal) : List (String × JVal) :=
  if jhasKey kvs k then kvs.map (fun p => if p.1 == k then (k, v) else p)
  else kvs ++ [(k, v)]

/-- Python string slicing `s[:n]` (by characters). -/
def pyTake (s : String) (n : Nat) : String := String.mk (s.data.take n)

/-- A single-quote character as a string (used by Python `repr`). -/
def squo : String := String.mk [Char.ofNat 39]

mutual
/-- Python `repr()` of a parsed-JSON value. -/
def pyRepr : JVal → String
  | .JNull => "None"
  | .JBool b => if b then "True" else "False"
  | .JNum q => toString q
  | .JStr s => squo ++ s ++ squo
  | .JList xs => "[" ++ String.intercalate ", " (pyReprList xs) ++ "]"
  | .JObj kvs => "\x7b" ++ String.intercalate ", " (pyReprObj kvs) ++ "\x7d"

def pyReprList : List JVal → List String
  | [] => []
  | x :: xs => pyRepr x :: pyReprList xs

def pyReprObj : List (String × JVal) → List String
  | [] => []
  | p :: kvs => (squo ++ p.1 ++ squo ++ ": " ++ pyRepr p.2) :: pyReprObj kvs
end

/-- Python `str()` of a parsed-JSON value (delegates to `repr` for containers). -/
def pyStr : JVal → String
  | .JStr s => s
  | v => pyRepr v

/-- Truncation toward zero, as Python `int()` does on numbers. -/
def ratTrunc (q : ℚ) : Int := if 0 ≤ q then ⌊q⌋ else -⌊-q⌋

/-- Worker for `pySplit`: accumulate the current word (reversed). -/
def splitWsAux : List Char → List Char → List String
  | [], acc => if acc.isEmpty then [] else [String.mk acc.reverse]
  | c :: cs, acc =>
    if c.isWhitespace then
      if acc.isEmpty then splitWsAux cs [] else String.mk acc.reverse :: splitWsAux cs []
    else splitWsAux cs (c :: acc)

/-- Python `s.split()`: split on whitespace runs, dropping empty pieces. -/
def pySplit (s : String) : List String := splitWsAux s.data []

/-- Python `s.strip()`: drop whitespace from both ends. -/
def pyStrip (s : String) : String :=
  String.mk (((s.data.dropWhile Char.isWhitespace).reverse.dropWhile Char.isWhitespace).reverse)

/-- Python `int(v)`; raises on non-numeric strings and non-number values. -/
def pyInt : JVal → Except String Int
  | .JNum q => .ok (ratTrunc q)
  | .JBool b => .ok (if b then 1 else 0)
  | .JStr s =>
    match (pyStrip s).toInt? with
    | some n => .ok n
    | none => .error ("ValueError: invalid literal for int() with base 10: " ++ s)
  | _ => .error "TypeError: int() argument must be a string or a number"

/-- Python `s.isdigit()` (ASCII digits suffice for this code). -/
def pyIsdigit (s : String) : Bool := !s.isEmpty && s.data.all Char.isDigit

/-- Python `len(v)`; raises on values without a length. -/
def pyLen : JVal → Except String Nat
  | .JList xs => .ok xs.length
  | .JStr s => .ok s.length
  | .JObj kvs => .ok kvs.length
  | _ => .error "TypeError: object has no len"

/-- Python `v[:3]`; iterating a sliced string yields one-character strings;
    dicts are not sliceable. -/
def pySlice3 : JVal → Except String (List JVal)
  | .JList xs => .ok (xs.take 3)
  | .JStr s => .ok ((s.data.take 3).map (fun c => JVal.JStr (String.mk [c])))
  | _ => .error "TypeError: unhashable type: slice"

/-- `pat` is a prefix of `l` (by characters). -/
def isPrefixList : List Char → List Char → Bool
  | [], _ => true
  | _ :: _, [] => false
  | a :: as, b :: bs => a == b && isPrefixList as bs

/-- `pat` occurs at some position of `l` (including the empty suffix). -/
def subAt (pat : List Char) : List Char → Bool
  | [] => pat.isEmpty
  | h :: t => isPrefixList pat (h :: t) || subAt pat t

/-- Substring test (Python `pat in s`); also used to state theorems about
    response texts. -/
def strContains (s pat : String) : Bool := subAt pat.data s.data

/-- Whitespace collapsing performed by `textwrap.shorten`. -/
def collapseWs (s : String) : String := String.intercalate " " (pySplit s)

/-- Greedily keep words from the front while the joined text plus the
    placeholder stays within the width (`textwrap.shorten` truncation). -/
def fitWords (width phLen : Nat) (acc : String) : List String → String
  | [] => acc
  | w :: ws =>
    let cand := if acc = "" then w else acc ++ " " ++ w
    if cand.length + phLen ≤ width then fitWords width phLen cand ws else acc

/-- Model of `textwrap.shorten(s, width, placeholder)`: collapse whitespace;
    return the collapsed text if it fits, else the longest word prefix that
    fits together with the placeholder. -/
def shorten (s : String) (width : Nat) (placeholder : String) : String :=
  let t := collapseWs s
  if t.length ≤ width then t
  else
    let kept := fitWords width placeholder.length "" (pySplit s)
    if kept = "" then pyStrip placeholder else kept ++ placeholder

/- ## Response summarizer (src/main.py lines 52-90, src/netlify/functions/query.py lines 36-74)

   The two `summarize` functions are byte-identical except for the label of
   the error branch ("API error" in main.py, "API Error" in query.py), so
   the shared parts are factored into helpers mirrored line-by-line from
   the sources. -/

/-- `dbinfo.get("InfoLeak") or dbinfo.get("info") or ""`. -/
def infoLeakOf (kvs : List (String × JVal)) : JVal :=
  pyOr (pyOr (jget kvs "InfoLeak") (jget kvs "info")) (.JStr "")

/-- The lines emitted for one entry: `" Entry i:"` followed by one line per
    field (values truncated to 200 characters) for dict entries, or the
    entry's string form otherwise. -/
def entryLines (i : Nat) (entry : JVal) : List String :=
  (" Entry " ++ toString i ++ ":") ::
  (match entry with
   | .JObj ekvs =>
     ekvs.map (fun p =>
       let s := pyStr p.2
       let s := if s.length > 200 then pyTake s 200 ++ "…" else s
       "  " ++ p.1 ++ ": " ++ s)
   | e => ["  " ++ pyStr e])

/-- `for i, entry in enumerate(entries, i0)` over the (at most 3) shown entries. -/
def enumParts (i0 : Nat) : List JVal → List String
  | [] => []
  | e :: es => entryLines i0 e ++ enumParts (i0 + 1) es

/-- The `parts` lines produced for one database section of the `"List"` value
    (loop body of the summarizers). Raises (as the Python code does) when the
    `Data` value has no length or is not sliceable. -/
def dbParts (dbname : String) (kvs : List (String × JVal)) : Except String (List String) := do
  let info_leak := infoLeakOf kvs
  let data := pyOr (jget kvs "Data") (.JList [])
  let n ← pyLen data
  let firstThree ← pySlice3 data
  pure (["== " ++ dbname ++ " =="]
        ++ (if truthy info_leak then ["Summary: " ++ pyStr info_leak] else [])
        ++ ["Entries: " ++ toString n]
        ++ enumParts 1 firstThree
        ++ (if n > 3 then ["...and " ++ toString (n - 3) ++ " more entries"] else [])
        ++ [""])

/-- `for dbname, dbinfo in resp_json["List"].items()`: databases in iteration
    order; `dbinfo.get` raises when a database value is not a dict. -/
def summarizeDbs : List (String × JVal) → Except String (List String)
  | [] => .ok []
  | (dbname, .JObj kvs) :: rest => do
    let ps ← dbParts dbname kvs
    let rs ← summarizeDbs rest
    pure (ps ++ rs)
  | (_, _) :: _ => .error "AttributeError: object has no attribute get"

/-- The branch structure shared by both summarizers; `errLabel` is the only
    difference between the two source files. -/
def summarizeCore (errLabel : String) (resp_json : JVal) : Except String String :=
  match resp_json with
  | .JObj kvs =>
    if jhasKey kvs "Error code" then
      .ok (errLabel ++ ": " ++ pyStr (jget kvs "Error code") ++ ". "
           ++ pyStr (pyOr (pyOr (jget kvs "Description") (jget kvs "message")) (.JStr "")))
    else
      match kvs.find? (fun p => p.1 == "List") with
      | some (_, .JObj dbs) => do
        let parts ← summarizeDbs dbs
        pure (pyStrip (String.intercalate "\n" parts))
      | _ => .ok (shorten (pyStr resp_json) 2000 "…")
  | v => .ok (shorten (pyStr v) 2000 "…")

namespace Main

/-- `summarize` of src/main.py (lines 52-90). -/
def summarize (resp_json : JVal) : Except String String :=
  summarizeCore "API error" resp_json

end Main

namespace Netlify

/-- `summarize` of src/netlify/functions/query.py (lines 36-74); note the
    capital E in its error label. -/
def summarize (resp_json : JVal) : Except String String :=
  summarizeCore "API Error" resp_json

end Netlify

/- ## Upstream model

   One synchronous POST per inbound call. The outcome of the single
   `requests.post` is a parameter of the embedding: either a transport
   failure (requests.RequestException) or a reply with an HTTP status and a
   body text. The body text's JSON parse (the stdlib parser, external to
   this repository) is carried alongside the text as an `Option JVal`:
   `none` models a body that is not valid JSON. -/

inductive Upstream where
  | transportFail (msg : String)
  | reply (status : Nat) (text : String) (json : Option JVal)

/-- The JSON payload each variant POSTs to the upstream API.
    app.py omits the `type` field (`type := none`). -/
structure UpstreamPayload where
  token : String
  request : JVal
  limit : Int
  lang : JVal
  type : Option JVal

/-- Result of running a handler: the payload it POSTed upstream (if the
    POST was reached) and the response it produced. -/
structure HOut (ρ : Type) where
  posted : Option UpstreamPayload
  response : ρ

/-- `requests.Response.ok`: true unless `raise_for_status` would raise,
    i.e. unless 400 ≤ status < 600. -/
def respOk (status : Nat) : Bool := status < 400 || 600 ≤ status

/-- Message of the stdlib JSON decode error (position details elided). -/
def jsonDecodeErrMsg : String := "Expecting value: line 1 column 1 (char 0)"

def API_URL : String := "https://leakosintapi.com/"

/-- `str(requests.HTTPError)` raised by `raise_for_status`: status plus a
    message naming the url (the reason phrase is elided; the response body
    never appears in it). -/
def httpErrorStr (status : Nat) : String :=
  toString status ++ (if status < 500 then " Client Error" else " Server Error")
    ++ " for url: " ++ API_URL

/- ## src/app.py (Flask variant, cost estimator) -/

namespace App

/-- `calculate_cost` (src/app.py lines 13-31). `math.sqrt` is modelled by
    `Real.sqrt`. -/
noncomputable def calculate_cost (limit : Int) (query : String) : ℝ :=
  let words := (pySplit query).filter (fun word => word.length ≥ 4 && !pyIsdigit word)
  let word_count := words.length
  let complexity : ℕ :=
    if word_count = 1 then 1
    else if word_count = 2 then 5
    else if word_count = 3 then 16
    else 40
  (5 + Real.sqrt ((limit : ℝ) * (complexity : ℝ))) / 5000

/-- Python `round(x, 6)` (half-even choice elided; exact on the values the
    claims touch). The result is a rational with denominator dividing 10^6. -/
noncomputable def round6 (x : ℝ) : ℚ := ((round (x * 1000000) : ℤ) : ℚ) / 1000000

/-- Flask turns an uncaught exception in the route into a framework 500;
    `resp` is `jsonify(body), status`. -/
inductive FlaskResponse where
  | resp (status : Nat) (body : JVal)
  | crash (msg : String)

/-- Body of a Flask response (`JNull` for a framework crash page); used only
    to state theorems. -/
def FlaskResponse.bodyOf : FlaskResponse → JVal
  | .resp _ b => b
  | .crash _ => .JNull

/-- Status of a Flask response (a crash is rendered as a framework 500). -/
def FlaskResponse.statusOf : FlaskResponse → Nat
  | .resp s _ => s
  | .crash _ => 500

/-- Lines 53-63 of src/app.py: the try/except around the POST and the
    response assembly. Everything inside the `try` that raises is caught and
    becomes a 500 with `{"error": str(e)}`. -/
noncomputable def searchPostResp (cost : ℝ) (up : Upstream) : FlaskResponse :=
  match up with
  | .transportFail msg => .resp 500 (.JObj [("error", .JStr msg)])
  | .reply _status _text none =>
    .resp 500 (.JObj [("error", .JStr jsonDecodeErrMsg)])
  | .reply _status _text (some result) =>
    match result with
    | .JObj rkvs =>
      if jhasKey rkvs "List" then
        let c := round6 cost
        let rkvs := jset rkvs "cost" (.JNum c)
        let rkvs := jset rkvs "balance_impact"
          (.JStr ("$" ++ toString c ++ " will be deducted"))
        .resp 200 (.JObj rkvs)
      else .resp 200 (.JObj rkvs)
    | .JList xs =>
      -- `"List" in result` on a list compares elements; assigning into a
      -- list raises a TypeError that the except turns into a 500
      if xs.any (fun v => match v with | .JStr t => t == "List" | _ => false) then
        .resp 500 (.JObj [("error", .JStr "TypeError: list indices must be integers")])
      else .resp 200 (.JList xs)
    | .JStr s =>
      -- `"List" in result` on a string is a substring test; assignment raises
      if strContains s "List" then
        .resp 500 (.JObj [("error", .JStr "TypeError: str object does not support item assignment")])
      else .resp 200 (.JStr s)
    | _ =>
      -- `in` on null/bool/number raises a TypeError, caught by the except
      .resp 500 (.JObj [("error", .JStr "TypeError: argument is not iterable")])

/-- `search` (src/app.py lines 33-63), parametrised by the configured token,
    the parsed inbound JSON body and the upstream outcome. Note the source
    parses `limit` before checking `query`. -/
noncomputable def search (api_token : String) (data : JVal) (up : Upstream) :
    HOut FlaskResponse :=
  match data with
  | .JObj kvs =>
    let queryV := jget kvs "query"
    match pyInt (jgetD kvs "limit" (.JNum 100)) with
    | .error e => ⟨none, .crash e⟩
    | .ok rawLimit =>
      let limit := min rawLimit 10000
      let lang := jgetD kvs "lang" (.JStr "en")
      if !truthy queryV then
        ⟨none, .resp 400 (.JObj [("error", .JStr "Query parameter is required")])⟩
      else
        match queryV with
        | .JStr q =>
          let cost := calculate_cost limit q
          let payload : UpstreamPayload := ⟨api_token, queryV, limit, lang, none⟩
          ⟨some payload, searchPostResp cost up⟩
        | _ => ⟨none, .crash "AttributeError: object has no attribute split"⟩
  | _ => ⟨none, .crash "AttributeError: object has no attribute get"⟩

end App

/- ## src/main.py (FastAPI variant) -/

namespace Main

/-- The pydantic model `QueryPayload` (src/main.py lines 32-36): a validated
    record with field defaults. -/
structure QueryPayload where
  query : String
  limit : Int := 100
  lang : String := "en"
  type : String := "json"

/-- The error classes that can escape `call_leak_api`: `HTTPError` from
    `raise_for_status`, any other `requests.RequestException` from the POST,
    and the JSON decode error from `resp.json()` (itself a
    `requests.RequestException` subclass). -/
inductive CallErr where
  | httpError (status : Nat)
  | requestFail (msg : String)
  | jsonError

/-- The value or error `call_leak_api` produces from the upstream outcome
    (src/main.py lines 47-49); independent of the payload it POSTed. -/
def leakResult (up : Upstream) : Except CallErr JVal :=
  match up with
  | .transportFail msg => .error (.requestFail msg)
  | .reply status _text pj =>
    if 400 ≤ status ∧ status < 600 then .error (.httpError status)
    else
      match pj with
      | some v => .ok v
      | none => .error .jsonError

/-- `call_leak_api` (src/main.py lines 39-49): builds the payload with the
    server token and performs the single POST. -/
def call_leak_api (token : String) (query : String) (limit : Int) (lang : String)
    (out_type : String) (up : Upstream) : UpstreamPayload × Except CallErr JVal :=
  (⟨token, .JStr query, limit, .JStr lang, some (.JStr out_type)⟩, leakResult up)

/-- Outcome of the FastAPI route: a 200 JSON body, an HTTPException, or an
    uncaught exception (which the framework renders as a 500). -/
inductive MainResult where
  | ok (body : JVal)
  | httpExc (status : Nat) (detail : String)
  | crash (msg : String)

/-- HTTP status of a `MainResult` (used only to state theorems). -/
def MainResult.statusOf : MainResult → Nat
  | .ok _ => 200
  | .httpExc s _ => s
  | .crash _ => 500

/-- Detail/body text of a `MainResult` error (used only to state theorems). -/
def MainResult.detailOf : MainResult → String
  | .ok _ => ""
  | .httpExc _ d => d
  | .crash m => m

/-- Response part of the `query` route, from the `call_leak_api` result
    (src/main.py lines 98-110). -/
def queryResp (res : Except CallErr JVal) : MainResult :=
  match res with
  | .error (.httpError s) => .httpExc 502 ("Upstream HTTP error: " ++ httpErrorStr s)
  | .error (.requestFail m) => .httpExc 502 ("Upstream request failed: " ++ m)
  | .error .jsonError => .httpExc 502 ("Upstream request failed: " ++ jsonDecodeErrMsg)
  | .ok raw =>
    match summarize raw with
    | .ok s => .ok (.JObj [("raw", raw), ("summary", .JStr s)])
    | .error e => .crash e

/-- The `query` route (src/main.py lines 98-110), parametrised by the
    configured token, the validated payload and the upstream outcome. -/
def query (token : String) (p : QueryPayload) (up : Upstream) : HOut MainResult :=
  ⟨some (call_leak_api token p.query p.limit p.lang p.type up).1,
   queryResp (leakResult up)⟩

end Main

/- ## src/netlify/functions/query.py (serverless variant) -/

namespace Netlify

/-- The inbound event body as the handler sees it after `json.loads`:
    missing/empty (loads raises), present but invalid JSON (loads raises),
    or parsed to a JSON value. -/
inductive BodyParse where
  | noBody
  | invalid (raw : String)
  | parsed (raw : String) (v : JVal)

structure NetlifyEvent where
  httpMethod : String
  body : BodyParse

structure NetlifyResponse where
  statusCode : Nat
  headers : List (String × String)
  body : JVal

/-- `make_response` (src/netlify/functions/query.py lines 18-34); the body
    object is kept structured (json.dumps is plain serialization). -/
def make_response (status_code : Nat) (body_obj : JVal) (origin : Option String) :
    NetlifyResponse :=
  { statusCode := status_code
    headers := [("Content-Type", "application/json"),
                ("Access-Control-Allow-Origin", origin.getD "*"),
                ("Access-Control-Allow-Methods", "GET, POST, OPTIONS"),
                ("Access-Control-Allow-Headers", "Content-Type, Authorization")]
    body := body_obj }

/-- Lines 83-87: the first origin of ALLOWED_ORIGINS, if the variable is a
    nonempty string after stripping. -/
def allowedOriginOf (env : String) : Option String :=
  if pyStrip env = "" then none
  else some (pyStrip (String.mk ((pyStrip env).data.takeWhile (fun c => c != ','))))

/-- Lines 141-147: the catch-all except; note it recomputes the origin with
    `"*"` when ALLOWED_ORIGINS is unset, and splits the unstripped value. -/
def catchAllResp (env : String) (detail : String) : NetlifyResponse :=
  let origin :=
    if pyStrip env ≠ "" then some (pyStrip (String.mk (env.data.takeWhile (fun c => c != ','))))
    else some "*"
  make_response 500 (.JObj [("error", .JStr "Internal server error"),
                            ("detail", .JStr detail)]) origin

/-- Lines 126-127: truncate the upstream error body to 1000 characters. -/
def truncate1000 (text : String) : String :=
  if text.length ≤ 1000 then text else pyTake text 1000 ++ "…"

/-- Lines 119-139: everything from the POST on; produces the response from
    the upstream outcome (a summarizer exception falls to the catch-all). -/
def handlerPostResp (env : String) (origin : Option String) (up : Upstream) :
    NetlifyResponse :=
  match up with
  | .transportFail msg =>
    make_response 502 (.JObj [("error", .JStr "Upstream request failed"),
                              ("detail", .JStr msg)]) origin
  | .reply status text pj =>
    if !respOk status then
      make_response 502 (.JObj [("error", .JStr "Upstream returned non-200"),
                                ("status_code", .JNum status),
                                ("text", .JStr (truncate1000 text))]) origin
    else
      match pj with
      | none =>
        make_response 200 (.JObj [("raw", .JStr text),
                                  ("summary", .JStr (shorten text 2000 " [...]"))]) origin
      | some resp_json =>
        match summarize resp_json with
        | .ok summary =>
          make_response 200 (.JObj [("raw", resp_json),
                                    ("summary", .JStr summary)]) origin
        | .error e => catchAllResp env e

/-- `handler` (src/netlify/functions/query.py lines 76-147), parametrised by
    the ALLOWED_ORIGINS variable, the LEAK_API_TOKEN variable
    (`none` = unset), the event and the upstream outcome. -/
def handler (env : String) (token : Option String) (ev : NetlifyEvent) (up : Upstream) :
    HOut NetlifyResponse :=
  if ev.httpMethod == "OPTIONS" then
    ⟨none, make_response 200 (.JObj [("ok", .JBool true)]) none⟩
  else
    let allowed_origin := allowedOriginOf env
    match token with
    | none => ⟨none, make_response 500 (.JObj [("error",
        .JStr "Server misconfiguration: missing LEAK_API_TOKEN")]) allowed_origin⟩
    | some tok =>
      if tok = "" then
        ⟨none, make_response 500 (.JObj [("error",
          .JStr "Server misconfiguration: missing LEAK_API_TOKEN")]) allowed_origin⟩
      else
        match ev.body with
        | .noBody | .invalid _ =>
          ⟨none, make_response 400 (.JObj [("error",
            .JStr "Invalid JSON. Expected application/json with \x27query\x27 field.")]) allowed_origin⟩
        | .parsed _ (.JObj kvs) =>
          let queryV := pyOr (jget kvs "query") (jget kvs "request")
          if !truthy queryV then
            ⟨none, make_response 400 (.JObj [("error",
              .JStr "Missing \x27query\x27 field in request body.")]) allowed_origin⟩
          else
            match pyInt (jgetD kvs "limit" (.JNum 100)) with
            | .error e => ⟨none, catchAllResp env e⟩
            | .ok limit =>
              let lang := jgetD kvs "lang" (.JStr "en")
              let out_type := jgetD kvs "type" (.JStr "json")
              let payload : UpstreamPayload :=
                ⟨tok, .JStr (pyStr queryV), limit, lang, some out_type⟩
              ⟨some payload, handlerPostResp env allowed_origin up⟩
        | .parsed _ _ =>
          -- payload.get on a non-dict raises; the catch-all answers 500
          ⟨none, catchAllResp env "AttributeError: object has no attribute get"⟩

end Netlify

deriving instance DecidableEq for Except

/- ## Spec-side definitions and concrete example inputs -/

/-- Spec-side definition (claim C4): the complexity map 1→1, 2→5, 3→16,
    otherwise (including 0) 40. -/
def complexityMap : ℕ → ℕ
  | 1 => 1
  | 2 => 5
  | 3 => 16
  | _ => 40

/-- Spec-side definition (claim C4): number of whitespace-separated tokens of
    the query of length at least 4 that are not purely numeric. -/
def wordCount (q : String) : ℕ :=
  ((pySplit q).filter (fun w => w.length ≥ 4 && !pyIsdigit w)).length

/-- Split a string into its lines (theorem statements only). -/
def splitLinesAux : List Char → List Char → List String
  | [], acc => [String.mk acc.reverse]
  | c :: cs, acc =>
    if c == '\n' then String.mk acc.reverse :: splitLinesAux cs []
    else splitLinesAux cs (c :: acc)

/-- Lines of a string (theorem statements only). -/
def splitLines (s : String) : List String := splitLinesAux s.data []

/-- Binding list of an object value (theorem statements only). -/
def JVal.objKvs : JVal → List (String × JVal)
  | .JObj kvs => kvs
  | _ => []

/-- The error-shape example from the spec. -/
def exErrObj : JVal :=
  .JObj [("Error code", .JStr "ERR_TOKEN"), ("Description", .JStr "bad token")]

/-- The `List` example from the spec: one database with four entries. -/
def exListObj : JVal :=
  .JObj [("List", .JObj [("DB1", .JObj [("InfoLeak", .JStr "desc"),
    ("Data", .JList [.JObj [("a", .JStr "1")], .JObj [("a", .JStr "2")],
                     .JObj [("a", .JStr "3")], .JObj [("a", .JStr "4")]])])])]

/-- The summary the sources produce for `exListObj`. -/
def exListSummary : String :=
  "== DB1 ==\nSummary: desc\nEntries: 4\n Entry 1:\n  a: 1\n Entry 2:\n  a: 2\n Entry 3:\n  a: 3\n...and 1 more entries"

/-- A benign upstream outcome: status 200, body parsing to `{}`. -/
def up0 : Upstream := .reply 200 "ok" (some (.JObj []))

/- ## Claim theorems -/

/-- C4: for every integer limit and string query the cost estimator returns
    (5 + sqrt(limit * complexity)) / 5000, with complexity the map 1→1, 2→5,
    3→16, else 40 applied to the count of whitespace-separated tokens of
    length ≥ 4 that are not purely numeric; in particular
    cost(100, "password") = 0.003. -/
theorem spec_c4_cost_formula :
    (∀ (limit : ℤ) (q : String),
      App.calculate_cost limit q
        = (5 + Real.sqrt ((limit : ℝ) * (complexityMap (wordCount q) : ℝ))) / 5000)
    ∧ App.calculate_cost 100 "password" = 3 / 1000 := by
  have hmap : ∀ n : ℕ,
      (if n = 1 then 1 else if n = 2 then 5 else if n = 3 then 16 else 40 : ℕ)
        = complexityMap n := by
    intro n
    match n with
    | 0 => rfl
    | 1 => rfl
    | 2 => rfl
    | 3 => rfl
    | m + 4 => rfl
  constructor
  · intro limit q
    show (5 + Real.sqrt ((limit : ℝ)
        * ((if wordCount q = 1 then 1 else if wordCount q = 2 then 5
            else if wordCount q = 3 then 16 else 40 : ℕ) : ℝ))) / 5000 = _
    rw [hmap]
  · have h1 : App.calculate_cost 100 "password"
        = (5 + Real.sqrt (((100 : ℤ) : ℝ) * ((1 : ℕ) : ℝ))) / 5000 := rfl
    rw [h1]
    have h2 : (((100 : ℤ) : ℝ) * ((1 : ℕ) : ℝ)) = 10 ^ 2 := by norm_num
    rw [h2, Real.sqrt_sq (by norm_num : (0 : ℝ) ≤ 10)]
    norm_num

/-- C6 (amended): on any object with an "Error code" key the main.py
    summarizer returns "API error: <code>. <description>" while the netlify
    summarizer returns "API Error: <code>. <description>" (capital E), the
    description being the first truthy of the Description and message fields
    (empty when neither is present); on the spec's example the main.py
    variant returns exactly "API error: ERR_TOKEN. bad token". -/
theorem spec_c6_error_summary :
    (∀ kvs : List (String × JVal), jhasKey kvs "Error code" = true →
      Main.summarize (.JObj kvs)
        = .ok ("API error: " ++ pyStr (jget kvs "Error code") ++ ". "
            ++ pyStr (pyOr (pyOr (jget kvs "Description") (jget kvs "message")) (.JStr "")))
      ∧ Netlify.summarize (.JObj kvs)
        = .ok ("API Error: " ++ pyStr (jget kvs "Error code") ++ ". "
            ++ pyStr (pyOr (pyOr (jget kvs "Description") (jget kvs "message")) (.JStr ""))))
    ∧ Main.summarize exErrObj = .ok "API error: ERR_TOKEN. bad token"
    ∧ Netlify.summarize exErrObj = .ok "API Error: ERR_TOKEN. bad token" := by
  refine ⟨fun kvs h => ⟨?_, ?_⟩, by decide, by decide⟩ <;>
    simp [Main.summarize, Netlify.summarize, summarizeCore, h]

/-- Witness for spec_c6_error_summary at a concrete object. -/
theorem spec_c6_witness :
    jhasKey [("Error code", JVal.JStr "E"), ("Description", JVal.JStr "d")] "Error code" = true
    ∧ Main.summarize (.JObj [("Error code", .JStr "E"), ("Description", .JStr "d")])
        = .ok "API error: E. d" :=
  ⟨by decide,
   (spec_c6_error_summary.1 [("Error code", .JStr "E"), ("Description", .JStr "d")]
     (by decide)).1.trans (by decide)⟩

/-- C6 counterexample: the netlify summarizer does not return the claimed
    lowercase "API error:" string on the spec's example. -/
theorem spec_c6_counterexample :
    Netlify.summarize exErrObj ≠ .ok "API error: ERR_TOKEN. bad token" := by decide

/-- Bind on a successful Except computation (helper). -/
theorem bindOk {α β : Type} (a : α) (f : α → Except String β) :
    (Except.ok a >>= f) = f a := rfl

/-- Pure on Except is ok (helper). -/
theorem pureOk {α : Type} (a : α) : (pure a : Except String α) = Except.ok a := rfl

/-- C7 (confirmed): for a database whose Data field is a list, the emitted
    section is: header line, optional Summary line, "Entries: N", entry
    blocks for at most the first 3 entries (min 3 N of them), and a
    "...and N-3 more entries" line exactly when N > 3; on the spec's
    concrete example both summarizers yield exactly the expected text, which
    has exactly 3 Entry lines and the required header, summary, count and
    trailing lines. -/
theorem spec_c7_list_summary :
    (∀ (dbname : String) (kvs : List (String × JVal)) (xs : List JVal),
      jget kvs "Data" = .JList xs →
      dbParts dbname kvs
        = .ok (["== " ++ dbname ++ " =="]
               ++ (if truthy (infoLeakOf kvs) then ["Summary: " ++ pyStr (infoLeakOf kvs)] else [])
               ++ ["Entries: " ++ toString xs.length]
               ++ enumParts 1 (xs.take 3)
               ++ (if xs.length > 3
                   then ["...and " ++ toString (xs.length - 3) ++ " more entries"] else [])
               ++ [""])
      ∧ (xs.take 3).length = min 3 xs.length)
    ∧ Main.summarize exListObj = .ok exListSummary
    ∧ Netlify.summarize exListObj = .ok exListSummary
    ∧ (splitLines exListSummary).countP (fun l => strContains l "Entry") = 3
    ∧ "== DB1 ==" ∈ splitLines exListSummary
    ∧ "Summary: desc" ∈ splitLines exListSummary
    ∧ "Entries: 4" ∈ splitLines exListSummary
    ∧ "...and 1 more entries" ∈ splitLines exListSummary := by
  refine ⟨?_, by decide, by decide, by decide, by decide, by decide, by decide, by decide⟩
  intro dbname kvs xs h
  have hdata : pyOr (jget kvs "Data") (.JList []) = .JList xs := by
    rw [h]; cases xs <;> simp [pyOr, truthy]
  refine ⟨?_, by simp⟩
  simp only [dbParts, hdata, pyLen, pySlice3, bindOk]
  rfl

/-- Witness for spec_c7_list_summary at a concrete database. -/
theorem spec_c7_witness :
    jget [("Data", JVal.JList [])] "Data" = .JList []
    ∧ dbParts "D" [("Data", .JList [])] = .ok ["== D ==", "Entries: 0", ""] :=
  ⟨rfl, ((spec_c7_list_summary.1 "D" [("Data", .JList [])] [] rfl).1).trans (by decide)⟩

/-- C10 (confirmed): when a database object's Data field is missing or null,
    the summarizer does not fail: it emits "Entries: 0" for that database,
    emits no Entry lines and no "...more entries" line for it, and continues
    with the remaining databases. -/
theorem spec_c10_missing_data :
    ∀ (dbname : String) (kvs rest : List (String × JVal)) (ps : List String),
      jget kvs "Data" = .JNull →
      summarizeDbs rest = .ok ps →
      dbParts dbname kvs
        = .ok (["== " ++ dbname ++ " =="]
               ++ (if truthy (infoLeakOf kvs) then ["Summary: " ++ pyStr (infoLeakOf kvs)] else [])
               ++ ["Entries: 0", ""])
      ∧ summarizeDbs ((dbname, .JObj kvs) :: rest)
        = .ok ((["== " ++ dbname ++ " =="]
                ++ (if truthy (infoLeakOf kvs) then ["Summary: " ++ pyStr (infoLeakOf kvs)] else [])
                ++ ["Entries: 0", ""]) ++ ps) := by
  intro dbname kvs rest ps h hrest
  have hdata : pyOr (jget kvs "Data") (.JList []) = .JList [] := by
    rw [h]; rfl
  have h1 : dbParts dbname kvs
      = .ok (["== " ++ dbname ++ " =="]
             ++ (if truthy (infoLeakOf kvs) then ["Summary: " ++ pyStr (infoLeakOf kvs)] else [])
             ++ ["Entries: 0", ""]) := by
    have hs : ("Entries: " ++ toString (0 : ℕ)) = "Entries: 0" := by decide
    simp [dbParts, hdata, pyLen, pySlice3, bindOk, pureOk, enumParts, hs, List.append_assoc]
  refine ⟨h1, ?_⟩
  simp only [summarizeDbs, h1, hrest, bindOk, pureOk]

/-- Witness for spec_c10_missing_data at a concrete database list. -/
theorem spec_c10_witness :
    jget [("InfoLeak", JVal.JStr "d")] "Data" = .JNull
    ∧ summarizeDbs [("D", JVal.JObj [("InfoLeak", JVal.JStr "d")])]
        = .ok ["== D ==", "Summary: d", "Entries: 0", ""] :=
  ⟨rfl, ((spec_c10_missing_data "D" [("InfoLeak", .JStr "d")] [] [] rfl rfl).2).trans (by decide)⟩

/-- C1 (confirmed): with the secret token configured (nonempty) in two
    different ways, each of the three handlers produces an identical response
    on the same inbound request and the same upstream outcome: the token
    flows only into the upstream payload, never into any response or error
    body, so no response can contain it where the upstream data does not. -/
theorem spec_c1_token_never_in_response :
    ∀ (t1 t2 : String), t1 ≠ "" → t2 ≠ "" →
      (∀ (data : JVal) (up : Upstream),
        (App.search t1 data up).response = (App.search t2 data up).response)
      ∧ (∀ (p : Main.QueryPayload) (up : Upstream),
        (Main.query t1 p up).response = (Main.query t2 p up).response)
      ∧ (∀ (env : String) (ev : Netlify.NetlifyEvent) (up : Upstream),
        (Netlify.handler env (some t1) ev up).response
          = (Netlify.handler env (some t2) ev up).response) := by
  intro t1 t2 h1 h2
  refine ⟨?_, fun p up => rfl, ?_⟩
  · intro data up
    cases data <;> first
      | rfl
      | (simp only [App.search]
         repeat first | rfl | split)
  · intro env ev up
    simp only [Netlify.handler, h1, h2]
    repeat first | rfl | split

/-- Witness for spec_c1_token_never_in_response at concrete tokens/inputs. -/
theorem spec_c1_witness :
    ("a" : String) ≠ ""
    ∧ (App.search "a" exErrObj up0).response = (App.search "b" exErrObj up0).response :=
  ⟨by decide,
   (spec_c1_token_never_in_response "a" "b" (by decide) (by decide)).1 exErrObj up0⟩

/-- C2 (amended): only the Flask variant clamps — it forwards
    min(parsed limit, 10000), the parse of a missing limit yielding the
    default 100 (`pyInt (JNum 100) = 100`); the Netlify and FastAPI variants
    forward the provided limit unclamped, with the same default of 100 when
    the field is absent. -/
theorem spec_c2_limit_forwarding :
    (∀ (t : String) (kvs : List (String × JVal)) (up : Upstream) (n : ℤ)
       (p : UpstreamPayload),
      pyInt (jgetD kvs "limit" (.JNum 100)) = .ok n →
      (App.search t (.JObj kvs) up).posted = some p → p.limit = min n 10000)
    ∧ (∀ (env t m raw : String) (kvs : List (String × JVal)) (up : Upstream)
         (n : ℤ) (p : UpstreamPayload),
        pyInt (jgetD kvs "limit" (.JNum 100)) = .ok n →
        (Netlify.handler env (some t) ⟨m, .parsed raw (.JObj kvs)⟩ up).posted = some p →
        p.limit = n)
    ∧ (∀ (t : String) (q : Main.QueryPayload) (up : Upstream) (p : UpstreamPayload),
        (Main.query t q up).posted = some p → p.limit = q.limit)
    ∧ (∀ s : String, ({ query := s } : Main.QueryPayload).limit = 100)
    ∧ pyInt (.JNum 100) = .ok 100 := by
  refine ⟨?_, ?_, ?_, fun s => rfl, by decide⟩
  · intro t kvs up n p hn hp
    simp only [App.search, hn] at hp
    split at hp
    · simp at hp
    · split at hp <;> simp at hp <;> subst hp <;> rfl
  · intro env t m raw kvs up n p hn hp
    simp only [Netlify.handler, hn] at hp
    split at hp
    · simp at hp
    · split at hp
      · simp at hp
      · split at hp
        · simp at hp
        · simp at hp
          subst hp
          rfl
  · intro t q up p hp
    simp only [Main.query, Main.call_leak_api] at hp
    simp at hp
    simp [← hp]

/-- C2 counterexample: on a submitted limit of 20000 the Netlify handler
    forwards 20000 upstream, not min(20000, 10000) = 10000. -/
theorem spec_c2_counterexample :
    ((Netlify.handler "" (some "t")
        ⟨"POST", .parsed "b" (.JObj [("query", .JStr "x"), ("limit", .JNum 20000)])⟩
        up0).posted.map (fun p => p.limit)) = some 20000
    ∧ (20000 : ℤ) ≠ min 20000 10000 :=
  ⟨rfl, by decide⟩

/-- Witness for spec_c2_limit_forwarding at a concrete Flask request. -/
theorem spec_c2_witness :
    pyInt (jgetD [("query", JVal.JStr "password"), ("limit", JVal.JNum 20000)] "limit" (.JNum 100))
      = .ok 20000
    ∧ (⟨"t", .JStr "password", min 20000 10000, .JStr "en", none⟩ : UpstreamPayload).limit
        = min 20000 10000
    ∧ min (20000 : ℤ) 10000 = 10000 :=
  ⟨by decide,
   spec_c2_limit_forwarding.1 "t" [("query", .JStr "password"), ("limit", .JNum 20000)] up0 20000
     ⟨"t", .JStr "password", min 20000 10000, .JStr "en", none⟩ (by decide) rfl,
   by decide⟩

/-- C3 (amended): for a missing or empty query the Flask variant responds
    400 with an error field and performs no upstream POST, provided the
    limit field parses (the source parses limit before checking query); the
    Netlify variant does the same provided its `request`-field fallback is
    also missing or empty; the FastAPI variant, whose model validation
    accepts the empty string, performs the upstream POST even for an empty
    query. -/
theorem spec_c3_empty_query :
    (∀ (t : String) (kvs : List (String × JVal)) (up : Upstream) (n : ℤ),
      (jget kvs "query" = .JNull ∨ jget kvs "query" = .JStr "") →
      pyInt (jgetD kvs "limit" (.JNum 100)) = .ok n →
      App.search t (.JObj kvs) up
        = ⟨none, .resp 400 (.JObj [("error", .JStr "Query parameter is required")])⟩)
    ∧ (∀ (env t m raw : String) (kvs : List (String × JVal)) (up : Upstream),
        t ≠ "" → m ≠ "OPTIONS" →
        (jget kvs "query" = .JNull ∨ jget kvs "query" = .JStr "") →
        (jget kvs "request" = .JNull ∨ jget kvs "request" = .JStr "") →
        Netlify.handler env (some t) ⟨m, .parsed raw (.JObj kvs)⟩ up
          = ⟨none, Netlify.make_response 400
              (.JObj [("error", .JStr "Missing \x27query\x27 field in request body.")])
              (Netlify.allowedOriginOf env)⟩)
    ∧ (∀ (t lang ty : String) (lim : ℤ) (up : Upstream),
        (Main.query t ⟨"", lim, lang, ty⟩ up).posted
          = some ⟨t, .JStr "", lim, .JStr lang, some (.JStr ty)⟩) := by
  refine ⟨?_, ?_, fun t lang ty lim up => rfl⟩
  · intro t kvs up n hq hn
    have hq2 : truthy (jget kvs "query") = false := by
      rcases hq with h | h <;> rw [h] <;> rfl
    simp [App.search, hn, hq2]
  · intro env t m raw kvs up ht hm hq hr
    have hq2 : truthy (pyOr (jget kvs "query") (jget kvs "request")) = false := by
      rcases hq with h | h <;> rcases hr with h2 | h2 <;> simp [pyOr, h, h2, truthy]
    have hm2 : (m == "OPTIONS") = false := by simp [hm]
    simp [Netlify.handler, hm2, ht, hq2]

/-- C3 counterexample: a body with no query field but a truthy `request`
    field makes the Netlify handler POST upstream and answer 200, not 400. -/
theorem spec_c3_counterexample :
    jget [("request", JVal.JStr "x")] "query" = .JNull
    ∧ (Netlify.handler "" (some "t")
        ⟨"POST", .parsed "" (.JObj [("request", .JStr "x")])⟩ up0).posted.isSome = true
    ∧ (Netlify.handler "" (some "t")
        ⟨"POST", .parsed "" (.JObj [("request", .JStr "x")])⟩ up0).response.statusCode = 200 :=
  ⟨rfl, rfl, rfl⟩

/-- Witness for spec_c3_empty_query at a concrete empty body. -/
theorem spec_c3_witness :
    (jget ([] : List (String × JVal)) "query" = .JNull)
    ∧ App.search "t" (.JObj []) up0
        = ⟨none, .resp 400 (.JObj [("error", .JStr "Query parameter is required")])⟩ :=
  ⟨rfl, spec_c3_empty_query.1 "t" [] up0 100 (Or.inl rfl) (by decide)⟩

/-- Updating a key in place does not change lookups of other keys (helper). -/
theorem jgetD_map_set (kvs : List (String × JVal)) (k k' : String) (v d : JVal)
    (h : k' ≠ k) :
    jgetD (kvs.map (fun p => if p.1 == k then (k, v) else p)) k' d = jgetD kvs k' d := by
  induction kvs with
  | nil => rfl
  | cons p ps ih =>
    simp only [List.map_cons, jgetD]
    by_cases hp : p.1 == k
    · have hk : p.1 = k := eq_of_beq hp
      have h1 : (k == k') = false := beq_eq_false_iff_ne.mpr (Ne.symm h)
      simp [hp, hk, h1]
      simpa using ih
    · by_cases hq : p.1 == k'
      · simp [hp, hq]
      · simp [hp, hq]
        simpa using ih

/-- Appending a binding for one key does not change lookups of other keys (helper). -/
theorem jgetD_append_set (kvs : List (String × JVal)) (k k' : String) (v d : JVal)
    (h : k' ≠ k) :
    jgetD (kvs ++ [(k, v)]) k' d = jgetD kvs k' d := by
  induction kvs with
  | nil =>
    have h1 : (k == k') = false := beq_eq_false_iff_ne.mpr (Ne.symm h)
    simp [jgetD, h1]
  | cons p ps ih =>
    simp only [List.cons_append, jgetD]
    by_cases hq : p.1 == k'
    · simp [hq]
    · simp [hq, ih]

/-- `dict[k] = v` does not change lookups of keys other than k (helper). -/
theorem jgetD_jset_ne (kvs : List (String × JVal)) (k k' : String) (v d : JVal)
    (h : k' ≠ k) :
    jgetD (jset kvs k v) k' d = jgetD kvs k' d := by
  unfold jset
  split
  · exact jgetD_map_set kvs k k' v d h
  · exact jgetD_append_set kvs k k' v d h

/-- C5 (amended): for every upstream JSON object the Flask variant answers
    200 with the upstream body, with the cost (rounded to 6 places) and
    balance_impact keys SET — overwriting any pre-existing values of those
    two keys — exactly when the body has a List key; every pre-existing
    field other than cost and balance_impact is unchanged, and when List is
    absent the body is returned entirely unchanged. -/
theorem spec_c5_cost_attachment :
    ∀ (t q : String) (kvs : List (String × JVal)) (n : ℤ) (status : ℕ)
      (text : String) (rkvs : List (String × JVal)),
      jget kvs "query" = .JStr q → q ≠ "" →
      pyInt (jgetD kvs "limit" (.JNum 100)) = .ok n →
      (App.search t (.JObj kvs) (.reply status text (some (.JObj rkvs)))).response
        = .resp 200 (.JObj (if jhasKey rkvs "List" then
            jset (jset rkvs "cost" (.JNum (App.round6 (App.calculate_cost (min n 10000) q))))
              "balance_impact"
              (.JStr ("$" ++ toString (App.round6 (App.calculate_cost (min n 10000) q))
                      ++ " will be deducted"))
            else rkvs))
      ∧ (∀ k, k ≠ "cost" → k ≠ "balance_impact" →
          jget (jset (jset rkvs "cost" (.JNum (App.round6 (App.calculate_cost (min n 10000) q))))
            "balance_impact"
            (.JStr ("$" ++ toString (App.round6 (App.calculate_cost (min n 10000) q))
                    ++ " will be deducted"))) k
          = jget rkvs k)
      ∧ (jhasKey rkvs "List" = false →
          (App.search t (.JObj kvs) (.reply status text (some (.JObj rkvs)))).response
            = .resp 200 (.JObj rkvs)) := by
  intro t q kvs n status text rkvs hq hqne hn
  have htq : truthy (JVal.JStr q) = true := by simp [truthy, hqne]
  have hmain : (App.search t (.JObj kvs) (.reply status text (some (.JObj rkvs)))).response
      = App.searchPostResp (App.calculate_cost (min n 10000) q)
          (.reply status text (some (.JObj rkvs))) := by
    simp [App.search, hn, hq, htq]
  refine ⟨?_, ?_, ?_⟩
  · rw [hmain]
    simp only [App.searchPostResp]
    split <;> rfl
  · intro k hk1 hk2
    exact (jgetD_jset_ne _ _ _ _ _ hk2).trans (jgetD_jset_ne _ _ _ _ _ hk1)
  · intro hList
    rw [hmain]
    simp [App.searchPostResp, hList]

/-- C5 counterexample: an upstream body that already carries a cost field
    does not keep it — the handler overwrites it, so not every pre-existing
    field of the upstream body is unchanged. -/
theorem spec_c5_counterexample :
    jget [("List", JVal.JObj []), ("cost", JVal.JStr "x")] "cost" = .JStr "x"
    ∧ jget (JVal.objKvs ((App.search "t" (.JObj [("query", .JStr "password")])
        (.reply 200 "" (some (.JObj [("List", .JObj []), ("cost", .JStr "x")])))).response.bodyOf))
        "cost" ≠ .JStr "x" :=
  ⟨rfl, fun h => JVal.noConfusion h⟩

/-- Witness for spec_c5_cost_attachment at a concrete request and body. -/
theorem spec_c5_witness :
    jget [("query", JVal.JStr "password")] "query" = .JStr "password"
    ∧ (App.search "t" (.JObj [("query", .JStr "password")])
        (.reply 200 "" (some (.JObj [])))).response = .resp 200 (.JObj []) :=
  ⟨rfl, (spec_c5_cost_attachment "t" "password" [("query", .JStr "password")] 100 200 "" []
      rfl (by decide) (by decide)).2.2 rfl⟩

/-- The kept-words prefix stays within the width budget (helper). -/
theorem fitWords_le (width phLen : Nat) :
    ∀ (ws : List String) (acc : String),
      (acc = "" ∨ acc.length + phLen ≤ width) →
      (fitWords width phLen acc ws = "" ∨ (fitWords width phLen acc ws).length + phLen ≤ width) := by
  intro ws
  induction ws with
  | nil => intro acc h; simpa [fitWords] using h
  | cons w rest ih =>
    intro acc h
    simp only [fitWords]
    by_cases ha : acc = ""
    · simp only [ha, if_pos]
      split
      · exact ih _ (Or.inr (by assumption))
      · exact Or.inl rfl
    · simp only [ha, if_neg, ite_false]
      split
      · exact ih _ (Or.inr (by assumption))
      · exact h

/-- The shortened preview fits within width 2000 (helper). -/
theorem shorten_length_le (s : String) :
    (shorten s 2000 " [...]").length ≤ 2000 := by
  simp only [shorten]
  split
  · assumption
  · split
    · decide
    · rename_i hne
      rcases fitWords_le 2000 (" [...]" : String).length (pySplit s) "" (Or.inl rfl) with h | h
      · exact absurd h hne
      · have hl : (" [...]" : String).length = 6 := by decide
        rw [String.length_append]
        omega

/-- Length of a character slice (helper). -/
theorem pyTake_length (s : String) (n : Nat) : (pyTake s n).length = min n s.length := by
  show (s.data.take n).length = min n s.length
  rw [List.length_take]
  rfl

/-- C8 (amended): on a success-status upstream reply whose body is not valid
    JSON, the Netlify handler does not fail: it answers 200 with the raw
    upstream text and a whitespace-collapsed preview bounded by 2000
    characters in place of a structured summary; the FastAPI variant instead
    fails the request — the JSON decode error escapes `resp.json()` as a
    requests exception and is mapped to a 502. -/
theorem spec_c8_nonjson_success :
    (∀ (env t m raw : String) (kvs : List (String × JVal)) (n : ℤ)
       (status : ℕ) (text : String),
      t ≠ "" → m ≠ "OPTIONS" →
      truthy (pyOr (jget kvs "query") (jget kvs "request")) = true →
      pyInt (jgetD kvs "limit" (.JNum 100)) = .ok n →
      respOk status = true →
      (Netlify.handler env (some t) ⟨m, .parsed raw (.JObj kvs)⟩
          (.reply status text none)).response
        = Netlify.make_response 200
            (.JObj [("raw", .JStr text), ("summary", .JStr (shorten text 2000 " [...]"))])
            (Netlify.allowedOriginOf env)
      ∧ (shorten text 2000 " [...]").length ≤ 2000)
    ∧ (∀ (t : String) (p : Main.QueryPayload) (status : ℕ) (text : String),
        respOk status = true →
        (Main.query t p (.reply status text none)).response
          = .httpExc 502 ("Upstream request failed: " ++ jsonDecodeErrMsg)) := by
  constructor
  · intro env t m raw kvs n status text ht hm hq hn hok
    refine ⟨?_, shorten_length_le text⟩
    have hm2 : (m == "OPTIONS") = false := by simp [hm]
    have hok2 : (!respOk status) = false := by simp [hok]
    simp [Netlify.handler, Netlify.handlerPostResp, hm2, ht, hq, hn, hok2]
  · intro t p status text hok
    have hc : ¬ (400 ≤ status ∧ status < 600) := by
      simp [respOk] at hok
      omega
    simp [Main.query, Main.queryResp, Main.leakResult, hc]

/-- C8 counterexample: on a 200 upstream reply with the non-JSON body
    "hello", the FastAPI handler answers 502, not 200 with the raw text. -/
theorem spec_c8_counterexample :
    (Main.query "t" ⟨"x", 100, "en", "json"⟩
      (.reply 200 "hello" none)).response.statusOf = 502
    ∧ (502 : ℕ) ≠ 200 :=
  ⟨rfl, by decide⟩

/-- Witness for spec_c8_nonjson_success at a concrete event and reply. -/
theorem spec_c8_witness :
    truthy (pyOr (jget [("query", JVal.JStr "x")] "query")
        (jget [("query", JVal.JStr "x")] "request")) = true
    ∧ (Netlify.handler "" (some "t") ⟨"POST", .parsed "" (.JObj [("query", .JStr "x")])⟩
        (.reply 200 "plain" none)).response
      = Netlify.make_response 200
          (.JObj [("raw", .JStr "plain"), ("summary", .JStr (shorten "plain" 2000 " [...]"))])
          (Netlify.allowedOriginOf "") :=
  ⟨by decide,
   (spec_c8_nonjson_success.1 "" "t" "POST" "" [("query", .JStr "x")] 100 200 "plain"
     (by decide) (by decide) (by decide) (by decide) (by decide)).1⟩

/-- C9 (amended): on a non-success upstream status the Netlify handler
    answers 502 with the upstream status code and a copy of the upstream
    body truncated to at most 1000 characters (plus an ellipsis marker when
    truncated); the FastAPI variant answers 502 carrying the status inside
    its message but no copy of the upstream body at all. -/
theorem spec_c9_upstream_error :
    (∀ (env t m raw : String) (kvs : List (String × JVal)) (n : ℤ)
       (status : ℕ) (text : String) (pj : Option JVal),
      t ≠ "" → m ≠ "OPTIONS" →
      truthy (pyOr (jget kvs "query") (jget kvs "request")) = true →
      pyInt (jgetD kvs "limit" (.JNum 100)) = .ok n →
      respOk status = false →
      (Netlify.handler env (some t) ⟨m, .parsed raw (.JObj kvs)⟩
          (.reply status text pj)).response
        = Netlify.make_response 502
            (.JObj [("error", .JStr "Upstream returned non-200"),
                    ("status_code", .JNum status),
                    ("text", .JStr (Netlify.truncate1000 text))])
            (Netlify.allowedOriginOf env)
      ∧ (text.length ≤ 1000 → Netlify.truncate1000 text = text)
      ∧ (1000 < text.length →
          Netlify.truncate1000 text = pyTake text 1000 ++ "…"
          ∧ (pyTake text 1000).length = 1000))
    ∧ (∀ (t : String) (p : Main.QueryPayload) (status : ℕ) (text : String) (pj : Option JVal),
        400 ≤ status → status < 600 →
        (Main.query t p (.reply status text pj)).response
          = .httpExc 502 ("Upstream HTTP error: " ++ httpErrorStr status)) := by
  constructor
  · intro env t m raw kvs n status text pj ht hm hq hn hok
    have hm2 : (m == "OPTIONS") = false := by simp [hm]
    have hok2 : (!respOk status) = true := by simp [hok]
    refine ⟨?_, ?_, ?_⟩
    · simp [Netlify.handler, Netlify.handlerPostResp, hm2, ht, hq, hn, hok2]
    · intro hle
      simp [Netlify.truncate1000, hle]
    · intro hgt
      have hle : ¬ text.length ≤ 1000 := by omega
      refine ⟨by simp [Netlify.truncate1000, hle], ?_⟩
      rw [pyTake_length]
      omega
  · intro t p status text pj h1 h2
    have hc : 400 ≤ status ∧ status < 600 := ⟨h1, h2⟩
    simp [Main.query, Main.queryResp, Main.leakResult, hc]

/-- C9 counterexample: on an upstream 500 the FastAPI handler's 502 detail
    does not contain the upstream response body at all, so no (truncated)
    copy of the body is carried. -/
theorem spec_c9_counterexample :
    (Main.query "t" ⟨"x", 100, "en", "json"⟩
      (.reply 500 "UPSTREAMSECRETBODY" none)).response.statusOf = 502
    ∧ strContains ((Main.query "t" ⟨"x", 100, "en", "json"⟩
        (.reply 500 "UPSTREAMSECRETBODY" none)).response.detailOf) "UPSTREAMSECRETBODY" = false :=
  ⟨rfl, by decide⟩

/-- Witness for spec_c9_upstream_error at a concrete event and reply. -/
theorem spec_c9_witness :
    respOk 500 = false
    ∧ (Netlify.handler "" (some "t") ⟨"POST", .parsed "" (.JObj [("query", .JStr "x")])⟩
        (.reply 500 "oops" none)).response
      = Netlify.make_response 502
          (.JObj [("error", .JStr "Upstream returned non-200"),
                  ("status_code", .JNum 500),
                  ("text", .JStr (Netlify.truncate1000 "oops"))])
          (Netlify.allowedOriginOf "") :=
  ⟨by decide,
   (spec_c9_upstream_error.1 "" "t" "POST" "" [("query", .JStr "x")] 100 500 "oops" none
     (by decide) (by decide) (by decide) (by decide) (by decide)).1⟩
